import Mathlib

/-!
Verification development for the go-microservice-base repository.

We shallowly embed the two core components:

* the JWT authentication middleware of pkg/middleware (jwt.go, and the
  earlier revision of the same file shipping NewJWTAuthMiddleware), and
* the service-lifecycle BaseServer of pkg/microservice/baseserver.go.

Pure request handling is embedded as Lean functions over explicit request
and token models; the HTTP layer is reduced to the data the handlers
actually inspect (the Authorization header value, the request context),
and the golang-jwt parsing pipeline is embedded with the key functions
taken literally from the source.
-/

namespace MicroBase

/-! ## Request context (Go context.Context model)

A Go context is a chain of key/value wrappers; Value walks from the
innermost wrapper outwards, so a lookup returns the most recently added
binding for a key.  Keys are compared with their dynamic type: the
middleware package uses the private type contextKey (a defined string
type), which never compares equal to a bare string key used by another
package.  We model the key universe with one constructor per key type. -/

inductive CtxKey where
  | middlewareKey (s : String)
  | goStringKey (s : String)
  | otherKey (n : Nat)
deriving DecidableEq

inductive CtxVal where
  | str (s : String)
  | int (n : Int)
  | other (n : Nat)
deriving DecidableEq

abbrev Ctx := List (CtxKey × CtxVal)

/-- context.WithValue: wrap the parent context with one more binding. -/
def contextWithValue (c : Ctx) (k : CtxKey) (v : CtxVal) : Ctx :=
  (k, v) :: c

/-- ctx.Value(k): innermost binding for k, if any. -/
def ctxValue (c : Ctx) (k : CtxKey) : Option CtxVal :=
  (c.find? (fun p => p.fst == k)).map (fun p => p.snd)

/-- userContextKey = contextKey("userID") (jwt.go line 19). -/
def userContextKey : CtxKey := CtxKey.middlewareKey ("userID")

/-- GetUserIDFromContext (jwt.go lines 153-156): type-assert the value
under userContextKey to string; on failure Go yields ("", false). -/
def GetUserIDFromContext (c : Ctx) : String × Bool :=
  match ctxValue c userContextKey with
  | some (CtxVal.str s) => (s, true)
  | _ => ("", false)

/-- ContextWithUserID (jwt.go lines 160-162). -/
def ContextWithUserID (c : Ctx) (userID : String) : Ctx :=
  contextWithValue c userContextKey (CtxVal.str userID)

/-! ## Token model (golang-jwt/jwt/v5 surface used by the source)

A parsed token is its header algorithm, optional kid header, the claims
the middleware reads (sub, exp), and a description of how its signature
was produced.  A signature verifies under a given key exactly when it was
produced with that same algorithm and key. -/

inductive Alg where
  | HS256
  | HS384
  | HS512
  | RS256
  | other (s : String)
deriving DecidableEq

/-- Whether token.Method type-asserts to *jwt.SigningMethodHMAC. -/
def Alg.isHMAC : Alg → Bool
  | Alg.HS256 => true
  | Alg.HS384 => true
  | Alg.HS512 => true
  | _ => false

/-- The alg header string, as interpolated into keyfunc error messages. -/
def Alg.algName : Alg → String
  | Alg.HS256 => "HS256"
  | Alg.HS384 => "HS384"
  | Alg.HS512 => "HS512"
  | Alg.RS256 => "RS256"
  | Alg.other s => s

inductive Sig where
  | hmacSig (a : Alg) (secret : String)
  | rsaSig (a : Alg) (keyName : String)
  | badSig
deriving DecidableEq

inductive ClaimVal where
  | str (s : String)
  | num (n : Int)
  | boolV (b : Bool)
  | null
deriving DecidableEq

structure Token where
  alg : Alg
  kid : Option String
  sub : Option ClaimVal
  exp : Option Int
  sig : Sig
deriving DecidableEq

/-- A JWKS key set: kid to raw-public-key mapping (at most one per kid). -/
abbrev KeySet := List (String × String)

/-- jwk.Set.LookupKeyID. -/
def lookupKeyID (ks : KeySet) (kid : String) : Option String :=
  (ks.find? (fun p => p.fst == kid)).map (fun p => p.snd)

/-- Internal error taxonomy of the embedded jwt.Parse pipeline. -/
inductive VerifyErr where
  | keyfuncHMAC (algName : String)
  | invalidMethod (algName : String)
  | missingKid
  | keyNotFound (kid : String)
  | sigInvalid
  | expired
deriving DecidableEq

/-- err.Error() for each verification error, as the modern middleware
interpolates it into its response message.  The inner keyfunc texts are
the fmt.Errorf strings of jwt.go lines 65 and 70; the surrounding
"token is unverifiable: error while executing keyfunc:" wrapping and the
signature/claims texts are the jwt/v5 library's error strings. -/
def VerifyErr.message : VerifyErr → String
  | VerifyErr.keyfuncHMAC a =>
      "token is unverifiable: error while executing keyfunc: unexpected signing method: " ++ a
  | VerifyErr.invalidMethod a =>
      "token signature is invalid: signing method " ++ a ++ " is invalid"
  | VerifyErr.missingKid =>
      "token is unverifiable: error while executing keyfunc: token missing \x27kid\x27 header"
  | VerifyErr.keyNotFound kid =>
      "token is unverifiable: error while executing keyfunc: key with ID \x27" ++ kid ++ "\x27 not found in JWKS"
  | VerifyErr.sigInvalid => "token signature is invalid"
  | VerifyErr.expired => "token has invalid claims: token is expired"

/-- jwt/v5 claims validation of the exp claim: expired when exp is
present and not in the future (absent exp is not an error by default). -/
def checkExp (now : Int) (t : Token) : Except VerifyErr Token :=
  match t.exp with
  | some e => if e ≤ now then Except.error VerifyErr.expired else Except.ok t
  | none => Except.ok t

/-- The token is not expired at time now. -/
def expOk (now : Int) (t : Token) : Bool :=
  match t.exp with
  | some e => decide (now < e)
  | none => true

/-- jwt.Parse with the shared-secret keyfunc of jwt.go lines 124-129
(identically NewJWTAuthMiddleware's keyfunc in the earlier revision):
the keyfunc rejects any method that is not *jwt.SigningMethodHMAC and
otherwise hands back []byte(jwtSecret); the library then verifies the
signature with the token's header algorithm and that key, and finally
validates the registered claims. -/
def verifyHMAC (jwtSecret : String) (now : Int) (t : Token) : Except VerifyErr Token :=
  if t.alg.isHMAC then
    match t.sig with
    | Sig.hmacSig a s =>
        if a = t.alg ∧ s = jwtSecret then checkExp now t
        else Except.error VerifyErr.sigInvalid
    | _ => Except.error VerifyErr.sigInvalid
  else Except.error (VerifyErr.keyfuncHMAC t.alg.algName)

/-- jwt.Parse with the JWKS keyfunc of jwt.go lines 57-78 under
jwt.WithValidMethods(["RS256"]): the library first rejects any method
outside the valid set, then runs the keyfunc (which requires a string
kid header and resolves it in the cached key set), then verifies the
signature with the resolved key, then validates claims.  The key-set
cache.Get step is modelled as always serving the primed set. -/
def verifyJWKS (ks : KeySet) (now : Int) (t : Token) : Except VerifyErr Token :=
  if t.alg = Alg.RS256 then
    match t.kid with
    | none => Except.error VerifyErr.missingKid
    | some kid =>
        match lookupKeyID ks kid with
        | none => Except.error (VerifyErr.keyNotFound kid)
        | some keyName =>
            match t.sig with
            | Sig.rsaSig a k =>
                if a = t.alg ∧ k = keyName then checkExp now t
                else Except.error VerifyErr.sigInvalid
            | _ => Except.error VerifyErr.sigInvalid
  else Except.error (VerifyErr.invalidMethod t.alg.algName)

/-! ## The middleware -/

/-- Modelled from the spec: the pkg/response package (WriteJSONError) is
not among the provided sources; per the spec's boundary description, a
failure response body is the JSON object with a single error field
holding the human-readable reason. -/
def jsonErrorBody (msg : String) : String :=
  "\x7b\"error\":\"" ++ msg ++ "\"\x7d"

/-- Outcome of one middleware invocation: either the middleware wrote a
response itself (downstream handler not run), or it invoked the
downstream handler with the given request context. -/
inductive MWResult where
  | handled (status : Nat) (body : String)
  | next (c : Ctx)
deriving DecidableEq

/-- The request data the middleware inspects: the value of
r.Header.Get("Authorization") (empty when the header is absent) and the
request context. -/
structure Request where
  authHeader : String
  ctx : Ctx

/-- strings.CutPrefix on character lists. -/
def cutPrefixL : List Char → List Char → Option (List Char)
  | [], s => some s
  | _ :: _, [] => none
  | p :: ps, c :: cs => if p = c then cutPrefixL ps cs else none

/-- strings.CutPrefix: the remainder after an exact, case-sensitive
prefix match, or none. -/
def cutPrefixStr (pre s : String) : Option String :=
  (cutPrefixL pre.data s.data).map (fun l => String.mk l)

/-- jwt.ParseUnverified, abstracted: mapping a compact JWT serialization
to the token it encodes, or a malformed-token error message. -/
abbrev Decoder := String → Except String Token

/-- NewJWTAuthMiddleware (earlier middleware revision, lines 21-62):
byte-identical to NewLegacySharedSecretAuthMiddleware of jwt.go
lines 109-150.  The final claims type-assertion branch of the source
("Invalid token claims") is unreachable in this model because jwt.Parse
with default options always yields MapClaims and sets Valid on success. -/
def newJWTAuthMiddleware (jwtSecret : String) (dec : Decoder) (now : Int)
    (req : Request) : MWResult :=
  if req.authHeader = "" then
    MWResult.handled 401 (jsonErrorBody ("Unauthorized: Missing Authorization header"))
  else
    match cutPrefixStr ("Bearer ") req.authHeader with
    | none => MWResult.handled 401 (jsonErrorBody ("Unauthorized: Invalid token format"))
    | some tokenString =>
        match dec tokenString with
        | Except.error _ =>
            MWResult.handled 401 (jsonErrorBody ("Unauthorized: Invalid token"))
        | Except.ok tok =>
            match verifyHMAC jwtSecret now tok with
            | Except.error _ =>
                MWResult.handled 401 (jsonErrorBody ("Unauthorized: Invalid token"))
            | Except.ok t =>
                match t.sub with
                | some (ClaimVal.str userID) =>
                    if userID = "" then
                      MWResult.handled 401 (jsonErrorBody ("Unauthorized: Invalid user ID in token"))
                    else
                      MWResult.next (contextWithValue req.ctx userContextKey (CtxVal.str userID))
                | _ =>
                    MWResult.handled 401 (jsonErrorBody ("Unauthorized: Invalid user ID in token"))

/-- NewLegacySharedSecretAuthMiddleware (jwt.go lines 109-150), whose
handler body is byte-identical to NewJWTAuthMiddleware's. -/
def newLegacySharedSecretAuthMiddleware (jwtSecret : String) (dec : Decoder)
    (now : Int) (req : Request) : MWResult :=
  newJWTAuthMiddleware jwtSecret dec now req

/-- NewJWKSAuthMiddleware (jwt.go lines 24-103), after a successful key
registration and initial fetch: the handler of lines 41-101.  Unlike the
legacy handler, a parse/verification error is reported with
fmt.Sprintf("Unauthorized: Invalid token (%s)", err.Error()). -/
def newJWKSAuthMiddleware (ks : KeySet) (dec : Decoder) (now : Int)
    (req : Request) : MWResult :=
  if req.authHeader = "" then
    MWResult.handled 401 (jsonErrorBody ("Unauthorized: Missing Authorization header"))
  else
    match cutPrefixStr ("Bearer ") req.authHeader with
    | none => MWResult.handled 401 (jsonErrorBody ("Unauthorized: Invalid token format"))
    | some tokenString =>
        match dec tokenString with
        | Except.error m =>
            MWResult.handled 401
              (jsonErrorBody ("Unauthorized: Invalid token (" ++ m ++ ")"))
        | Except.ok tok =>
            match verifyJWKS ks now tok with
            | Except.error e =>
                MWResult.handled 401
                  (jsonErrorBody ("Unauthorized: Invalid token (" ++ e.message ++ ")"))
            | Except.ok t =>
                match t.sub with
                | some (ClaimVal.str userID) =>
                    if userID = "" then
                      MWResult.handled 401 (jsonErrorBody ("Unauthorized: Invalid user ID in token"))
                    else
                      MWResult.next (contextWithValue req.ctx userContextKey (CtxVal.str userID))
                | _ =>
                    MWResult.handled 401 (jsonErrorBody ("Unauthorized: Invalid user ID in token"))

/-! ## BaseServer (pkg/microservice/baseserver.go)

The server state the claims concern: the normalized listen address, the
atomically stored readiness flag, and whether a ready channel was
registered through SetReadyChannel.  The probe handlers are pure
functions of this state; Start is embedded as the sequence of
externally observable events it performs, driven by the outcome of the
net.Listen call and of http.Server.Serve. -/

structure BaseServerModel where
  httpPort : String
  isReady : Bool
  hasReadyChan : Bool
deriving DecidableEq

/-- NewBaseServer's listen-address normalization (lines 55-61). -/
def normalizeListenAddr (httpPort : String) : String :=
  let l := if httpPort = "" then "8080" else httpPort
  if (cutPrefixStr (":") l).isSome then l else ":" ++ l

/-- NewBaseServer (lines 52-80): readiness starts false, no ready
channel is registered. -/
def newBaseServer (httpPort : String) : BaseServerModel :=
  { httpPort := normalizeListenAddr httpPort, isReady := false, hasReadyChan := false }

/-- SetReady (lines 95-102). -/
def setReady (s : BaseServerModel) (ready : Bool) : BaseServerModel :=
  { s with isReady := ready }

/-- SetReadyChannel (lines 89-91). -/
def setReadyChannel (s : BaseServerModel) : BaseServerModel :=
  { s with hasReadyChan := true }

/-- healthzHandler (lines 159-162): always 200 OK. -/
def healthzHandler (_ : BaseServerModel) : Nat × String :=
  (200, "OK")

/-- readyzHandler (lines 166-174). -/
def readyzHandler (s : BaseServerModel) : Nat × String :=
  if s.isReady then (200, "READY") else (503, "NOT READY")

/-- registerDefaultHandlers (lines 83-87) routing for the two built-in
probe handlers; /metrics is delegated to the external promhttp
collaborator and is outside this model. -/
def serveDefaultRoute (s : BaseServerModel) (path : String) : Option (Nat × String) :=
  if path = "/healthz" then some (healthzHandler s)
  else if path = "/readyz" then some (readyzHandler s)
  else none

/-- The externally observable steps of BaseServer.Start. -/
inductive StartEvent where
  | listenerBound (addr : String)
  | readyChanClosed
  | serveCalled
deriving DecidableEq, BEq

/-- Outcome of net.Listen("tcp", s.HTTPPort). -/
inductive BindOutcome where
  | ok (addr : String)
  | fail (msg : String)
deriving DecidableEq

/-- Outcome of httpServer.Serve (always a non-nil error: either
http.ErrServerClosed after a shutdown, or a real failure). -/
inductive ServeOutcome where
  | closed
  | failed (msg : String)
deriving DecidableEq

/-- BaseServer.Start (lines 106-129): on a bind failure it returns the
wrapped error immediately; on success it records the bound address,
closes the registered ready channel if any, and serves.  A Serve error
other than http.ErrServerClosed is returned; ErrServerClosed yields
nil. -/
def startModel (s : BaseServerModel) (bind : BindOutcome) (serve : ServeOutcome) :
    List StartEvent × Option String :=
  match bind with
  | BindOutcome.fail m =>
      ([], some ("failed to listen on port " ++ s.httpPort ++ ": " ++ m))
  | BindOutcome.ok addr =>
      let evs := StartEvent.listenerBound addr ::
        ((if s.hasReadyChan then [StartEvent.readyChanClosed] else []) ++
          [StartEvent.serveCalled])
      match serve with
      | ServeOutcome.closed => (evs, none)
      | ServeOutcome.failed m => (evs, some m)

/-- No readyChanClosed event occurs before a listenerBound event. -/
def noCloseBeforeBind : List StartEvent → Bool
  | [] => true
  | StartEvent.readyChanClosed :: _ => false
  | StartEvent.listenerBound _ :: _ => true
  | StartEvent.serveCalled :: rest => noCloseBeforeBind rest

/-- Contiguous-sublist test on character lists. -/
def isInfixL (sub : List Char) : List Char → Bool
  | [] => (cutPrefixL sub []).isSome
  | c :: cs => (cutPrefixL sub (c :: cs)).isSome || isInfixL sub cs

/-- Substring test (for statements about response-body content). -/
def strContains (s sub : String) : Bool :=
  isInfixL sub.data s.data

/-- A close event occurs somewhere in the list. -/
def hasCloseEvent : List StartEvent → Bool
  | [] => false
  | StartEvent.readyChanClosed :: _ => true
  | _ :: rest => hasCloseEvent rest

/-- The sub claim is absent, not a string, or the empty string: the
condition under which both handlers answer "Invalid user ID in token". -/
def subInvalid : Option ClaimVal → Bool
  | some (ClaimVal.str u) => u == ""
  | _ => true

/-- The token signature was produced with the token's own header
algorithm and the given raw key (the condition under which the jwt
library's RS256 verification succeeds for the resolved key). -/
def rsaSigMatches (t : Token) (key : String) : Bool :=
  match t.sig with
  | Sig.rsaSig a k => a == t.alg && k == key
  | _ => false

/-- The four response bodies the shared-secret handler can emit: all are
fixed reason strings, none depends on the verification error. -/
def legacyFailureBodies : List String :=
  [jsonErrorBody ("Unauthorized: Missing Authorization header"),
   jsonErrorBody ("Unauthorized: Invalid token format"),
   jsonErrorBody ("Unauthorized: Invalid token"),
   jsonErrorBody ("Unauthorized: Invalid user ID in token")]

/-! ## Concrete sample inputs (for the closed instantiations below) -/

/-- A decoder whose only well-formed serialization is "tok". -/
def decTok (t : Token) : Decoder :=
  fun s => if s = "tok" then Except.ok t else Except.error ("token is malformed")

/-- A request presenting the bearer token serialized as "tok". -/
def reqBearerTok : Request := { authHeader := "Bearer tok", ctx := [] }

/-- An RS256 token that declares no kid header. -/
def tokNoKid : Token :=
  { alg := Alg.RS256, kid := none, sub := some (ClaimVal.str ("user-123")),
    exp := none, sig := Sig.badSig }

/-- An HS256 token for subject user-123 signed with secret "S". -/
def tokHS : Token :=
  { alg := Alg.HS256, kid := none, sub := some (ClaimVal.str ("user-123")),
    exp := some 1000, sig := Sig.hmacSig Alg.HS256 ("S") }

/-- The same token signed with the different secret "S2". -/
def tokHSWrong : Token :=
  { alg := Alg.HS256, kid := none, sub := some (ClaimVal.str ("user-123")),
    exp := some 1000, sig := Sig.hmacSig Alg.HS256 ("S2") }

/-- An RS256 token for subject user-123 with kid "k1" signed by the key
published under "k1". -/
def tokRS : Token :=
  { alg := Alg.RS256, kid := some ("k1"), sub := some (ClaimVal.str ("user-123")),
    exp := some 1000, sig := Sig.rsaSig Alg.RS256 ("key1") }

/-- A one-key key set publishing raw key "key1" under kid "k1". -/
def ksOne : KeySet := [("k1", "key1")]

/-- An HS384 token for subject user-123 signed with secret "S". -/
def tokHS384 : Token :=
  { alg := Alg.HS384, kid := none, sub := some (ClaimVal.str ("user-123")),
    exp := some 1000, sig := Sig.hmacSig Alg.HS384 ("S") }

/-- A request with no Authorization header (Header.Get yields ""). -/
def reqNoAuth : Request := { authHeader := "", ctx := [] }

/-- A request whose Authorization header is not Bearer-prefixed. -/
def reqBadFormat : Request := { authHeader := "invalid-format", ctx := [] }

/-! ## Supporting lemmas -/

theorem cutPrefixL_append (p r : List Char) : cutPrefixL p (p ++ r) = some r := by
  induction p with
  | nil => rfl
  | cons c cs ih => simp [cutPrefixL, ih]

theorem cutPrefixStr_append (pre s : String) : cutPrefixStr pre (pre ++ s) = some s := by
  unfold cutPrefixStr
  rw [String.data_append, cutPrefixL_append]
  rfl

theorem append_ne_empty (pre s : String) (h : pre.data ≠ []) : pre ++ s ≠ "" := by
  intro he
  apply h
  have hd : (pre ++ s).data = ("" : String).data := congrArg String.data he
  rw [String.data_append] at hd
  exact (List.append_eq_nil.mp hd).1

theorem bearer_append_ne_empty (s : String) : ("Bearer " ++ s) ≠ "" :=
  append_ne_empty _ s (by decide)

theorem cutPrefixL_eq_none (p : List Char) : ∀ s : List Char,
    ¬ p <+: s → cutPrefixL p s = none := by
  induction p with
  | nil => intro s h; exact absurd List.nil_prefix h
  | cons c cs ih =>
    intro s h
    cases s with
    | nil => rfl
    | cons d ds =>
      by_cases hcd : c = d
      · subst hcd
        have : cutPrefixL cs ds = none :=
          ih ds (fun hp => h (List.cons_prefix_cons.mpr ⟨rfl, hp⟩))
        simp [cutPrefixL, this]
      · simp [cutPrefixL, hcd]

theorem cutPrefixStr_eq_none (pre s : String) (h : ¬ pre.data <+: s.data) :
    cutPrefixStr pre s = none := by
  unfold cutPrefixStr
  rw [cutPrefixL_eq_none pre.data s.data h]
  rfl

theorem checkExp_ok (now : Int) (t : Token) (h : expOk now t = true) :
    checkExp now t = Except.ok t := by
  cases hx : t.exp with
  | none => simp [checkExp, hx]
  | some e =>
    have he : now < e := by simpa [expOk, hx] using h
    simp [checkExp, hx]
    omega

theorem verifyHMAC_ok (jwtSecret : String) (now : Int) (t : Token)
    (halg : t.alg.isHMAC = true) (hsig : t.sig = Sig.hmacSig t.alg jwtSecret)
    (hexp : expOk now t = true) :
    verifyHMAC jwtSecret now t = Except.ok t := by
  simp [verifyHMAC, halg, hsig, checkExp_ok now t hexp]

theorem verifyHMAC_wrong_secret (jwtSecret s2 : String) (now : Int) (t : Token)
    (halg : t.alg.isHMAC = true) (hsig : t.sig = Sig.hmacSig t.alg s2)
    (hs : s2 ≠ jwtSecret) :
    verifyHMAC jwtSecret now t = Except.error VerifyErr.sigInvalid := by
  simp [verifyHMAC, halg, hsig, hs]

theorem verifyHMAC_not_hmac (jwtSecret : String) (now : Int) (t : Token)
    (halg : t.alg.isHMAC = false) :
    verifyHMAC jwtSecret now t = Except.error (VerifyErr.keyfuncHMAC t.alg.algName) := by
  simp [verifyHMAC, halg]

theorem verifyJWKS_ok (ks : KeySet) (now : Int) (t : Token) (kid key : String)
    (halg : t.alg = Alg.RS256) (hkid : t.kid = some kid)
    (hlook : lookupKeyID ks kid = some key)
    (hsig : t.sig = Sig.rsaSig t.alg key) (hexp : expOk now t = true) :
    verifyJWKS ks now t = Except.ok t := by
  simp [verifyJWKS, halg, hkid, hlook, hsig, checkExp_ok now t hexp]

theorem verifyJWKS_not_rs256 (ks : KeySet) (now : Int) (t : Token)
    (halg : t.alg ≠ Alg.RS256) :
    verifyJWKS ks now t = Except.error (VerifyErr.invalidMethod t.alg.algName) := by
  simp [verifyJWKS, halg]

theorem verifyJWKS_no_kid (ks : KeySet) (now : Int) (t : Token)
    (halg : t.alg = Alg.RS256) (hkid : t.kid = none) :
    verifyJWKS ks now t = Except.error VerifyErr.missingKid := by
  simp [verifyJWKS, halg, hkid]

theorem verifyJWKS_key_not_found (ks : KeySet) (now : Int) (t : Token) (kid : String)
    (halg : t.alg = Alg.RS256) (hkid : t.kid = some kid)
    (hlook : lookupKeyID ks kid = none) :
    verifyJWKS ks now t = Except.error (VerifyErr.keyNotFound kid) := by
  simp [verifyJWKS, halg, hkid, hlook]

theorem verifyJWKS_bad_sig (ks : KeySet) (now : Int) (t : Token) (kid key : String)
    (halg : t.alg = Alg.RS256) (hkid : t.kid = some kid)
    (hlook : lookupKeyID ks kid = some key)
    (hsig : rsaSigMatches t key = false) :
    verifyJWKS ks now t = Except.error VerifyErr.sigInvalid := by
  cases hs : t.sig with
  | hmacSig a s => simp [verifyJWKS, halg, hkid, hlook, hs]
  | badSig => simp [verifyJWKS, halg, hkid, hlook, hs]
  | rsaSig a k =>
    have hm : ¬ (a = Alg.RS256 ∧ k = key) := by
      intro hak
      rw [rsaSigMatches, hs] at hsig
      simp [halg, hak.1, hak.2] at hsig
    simp [verifyJWKS, halg, hkid, hlook, hs, hm]

theorem legacy_auth_next (jwtSecret : String) (dec : Decoder) (now : Int)
    (req : Request) (s : String) (t : Token) (uid : String)
    (hhdr : req.authHeader = "Bearer " ++ s)
    (hdec : dec s = Except.ok t)
    (hver : verifyHMAC jwtSecret now t = Except.ok t)
    (hsub : t.sub = some (ClaimVal.str uid)) (huid : uid ≠ "") :
    newJWTAuthMiddleware jwtSecret dec now req =
      MWResult.next (ContextWithUserID req.ctx uid) := by
  have hne : req.authHeader ≠ "" := hhdr ▸ bearer_append_ne_empty s
  have hcut : cutPrefixStr ("Bearer ") req.authHeader = some s := by
    rw [hhdr]; exact cutPrefixStr_append _ s
  simp [newJWTAuthMiddleware, hne, hcut, hdec, hver, hsub, huid,
    ContextWithUserID]

theorem legacy_auth_verify_fail (jwtSecret : String) (dec : Decoder) (now : Int)
    (req : Request) (s : String) (t : Token) (e : VerifyErr)
    (hhdr : req.authHeader = "Bearer " ++ s)
    (hdec : dec s = Except.ok t)
    (hver : verifyHMAC jwtSecret now t = Except.error e) :
    newJWTAuthMiddleware jwtSecret dec now req =
      MWResult.handled 401 (jsonErrorBody ("Unauthorized: Invalid token")) := by
  have hne : req.authHeader ≠ "" := hhdr ▸ bearer_append_ne_empty s
  have hcut : cutPrefixStr ("Bearer ") req.authHeader = some s := by
    rw [hhdr]; exact cutPrefixStr_append _ s
  simp [newJWTAuthMiddleware, hne, hcut, hdec, hver]

theorem legacy_auth_bad_sub (jwtSecret : String) (dec : Decoder) (now : Int)
    (req : Request) (s : String) (t : Token)
    (hhdr : req.authHeader = "Bearer " ++ s)
    (hdec : dec s = Except.ok t)
    (hver : verifyHMAC jwtSecret now t = Except.ok t)
    (hsub : subInvalid t.sub = true) :
    newJWTAuthMiddleware jwtSecret dec now req =
      MWResult.handled 401 (jsonErrorBody ("Unauthorized: Invalid user ID in token")) := by
  have hne : req.authHeader ≠ "" := hhdr ▸ bearer_append_ne_empty s
  have hcut : cutPrefixStr ("Bearer ") req.authHeader = some s := by
    rw [hhdr]; exact cutPrefixStr_append _ s
  cases hs : t.sub with
  | none => simp [newJWTAuthMiddleware, hne, hcut, hdec, hver, hs]
  | some v =>
    cases v with
    | str u =>
      have hu : u = "" := by simpa [subInvalid, hs] using hsub
      simp [newJWTAuthMiddleware, hne, hcut, hdec, hver, hs, hu]
    | num n => simp [newJWTAuthMiddleware, hne, hcut, hdec, hver, hs]
    | boolV b => simp [newJWTAuthMiddleware, hne, hcut, hdec, hver, hs]
    | null => simp [newJWTAuthMiddleware, hne, hcut, hdec, hver, hs]

theorem jwks_auth_next (ks : KeySet) (dec : Decoder) (now : Int)
    (req : Request) (s : String) (t : Token) (uid : String)
    (hhdr : req.authHeader = "Bearer " ++ s)
    (hdec : dec s = Except.ok t)
    (hver : verifyJWKS ks now t = Except.ok t)
    (hsub : t.sub = some (ClaimVal.str uid)) (huid : uid ≠ "") :
    newJWKSAuthMiddleware ks dec now req =
      MWResult.next (ContextWithUserID req.ctx uid) := by
  have hne : req.authHeader ≠ "" := hhdr ▸ bearer_append_ne_empty s
  have hcut : cutPrefixStr ("Bearer ") req.authHeader = some s := by
    rw [hhdr]; exact cutPrefixStr_append _ s
  simp [newJWKSAuthMiddleware, hne, hcut, hdec, hver, hsub, huid,
    ContextWithUserID]

theorem jwks_auth_verify_fail (ks : KeySet) (dec : Decoder) (now : Int)
    (req : Request) (s : String) (t : Token) (e : VerifyErr)
    (hhdr : req.authHeader = "Bearer " ++ s)
    (hdec : dec s = Except.ok t)
    (hver : verifyJWKS ks now t = Except.error e) :
    newJWKSAuthMiddleware ks dec now req =
      MWResult.handled 401
        (jsonErrorBody ("Unauthorized: Invalid token (" ++ e.message ++ ")")) := by
  have hne : req.authHeader ≠ "" := hhdr ▸ bearer_append_ne_empty s
  have hcut : cutPrefixStr ("Bearer ") req.authHeader = some s := by
    rw [hhdr]; exact cutPrefixStr_append _ s
  simp [newJWKSAuthMiddleware, hne, hcut, hdec, hver]

theorem jwks_auth_bad_sub (ks : KeySet) (dec : Decoder) (now : Int)
    (req : Request) (s : String) (t : Token)
    (hhdr : req.authHeader = "Bearer " ++ s)
    (hdec : dec s = Except.ok t)
    (hver : verifyJWKS ks now t = Except.ok t)
    (hsub : subInvalid t.sub = true) :
    newJWKSAuthMiddleware ks dec now req =
      MWResult.handled 401 (jsonErrorBody ("Unauthorized: Invalid user ID in token")) := by
  have hne : req.authHeader ≠ "" := hhdr ▸ bearer_append_ne_empty s
  have hcut : cutPrefixStr ("Bearer ") req.authHeader = some s := by
    rw [hhdr]; exact cutPrefixStr_append _ s
  cases hs : t.sub with
  | none => simp [newJWKSAuthMiddleware, hne, hcut, hdec, hver, hs]
  | some v =>
    cases v with
    | str u =>
      have hu : u = "" := by simpa [subInvalid, hs] using hsub
      simp [newJWKSAuthMiddleware, hne, hcut, hdec, hver, hs, hu]
    | num n => simp [newJWKSAuthMiddleware, hne, hcut, hdec, hver, hs]
    | boolV b => simp [newJWKSAuthMiddleware, hne, hcut, hdec, hver, hs]
    | null => simp [newJWKSAuthMiddleware, hne, hcut, hdec, hver, hs]

theorem legacy_missing_header (jwtSecret : String) (dec : Decoder) (now : Int)
    (req : Request) (hhdr : req.authHeader = "") :
    newJWTAuthMiddleware jwtSecret dec now req =
      MWResult.handled 401 (jsonErrorBody ("Unauthorized: Missing Authorization header")) := by
  simp [newJWTAuthMiddleware, hhdr]

theorem jwks_missing_header (ks : KeySet) (dec : Decoder) (now : Int)
    (req : Request) (hhdr : req.authHeader = "") :
    newJWKSAuthMiddleware ks dec now req =
      MWResult.handled 401 (jsonErrorBody ("Unauthorized: Missing Authorization header")) := by
  simp [newJWKSAuthMiddleware, hhdr]

theorem legacy_bad_format (jwtSecret : String) (dec : Decoder) (now : Int)
    (req : Request) (hne : req.authHeader ≠ "")
    (hpre : ¬ ("Bearer ").data <+: req.authHeader.data) :
    newJWTAuthMiddleware jwtSecret dec now req =
      MWResult.handled 401 (jsonErrorBody ("Unauthorized: Invalid token format")) := by
  have hcut : cutPrefixStr ("Bearer ") req.authHeader = none :=
    cutPrefixStr_eq_none _ _ hpre
  simp [newJWTAuthMiddleware, hne, hcut]

theorem jwks_bad_format (ks : KeySet) (dec : Decoder) (now : Int)
    (req : Request) (hne : req.authHeader ≠ "")
    (hpre : ¬ ("Bearer ").data <+: req.authHeader.data) :
    newJWKSAuthMiddleware ks dec now req =
      MWResult.handled 401 (jsonErrorBody ("Unauthorized: Invalid token format")) := by
  have hcut : cutPrefixStr ("Bearer ") req.authHeader = none :=
    cutPrefixStr_eq_none _ _ hpre
  simp [newJWKSAuthMiddleware, hne, hcut]

theorem legacy_handled_bodies (jwtSecret : String) (dec : Decoder) (now : Int)
    (req : Request) (st : Nat) (b : String)
    (h : newJWTAuthMiddleware jwtSecret dec now req = MWResult.handled st b) :
    st = 401 ∧ b ∈ legacyFailureBodies := by
  unfold newJWTAuthMiddleware at h
  repeat' split at h
  all_goals simp only [MWResult.handled.injEq, reduceCtorEq] at h
  all_goals exact ⟨h.1.symm, h.2 ▸ (by simp [legacyFailureBodies])⟩

theorem jwks_handled_status (ks : KeySet) (dec : Decoder) (now : Int)
    (req : Request) (st : Nat) (b : String)
    (h : newJWKSAuthMiddleware ks dec now req = MWResult.handled st b) :
    st = 401 := by
  unfold newJWKSAuthMiddleware at h
  repeat' split at h
  all_goals simp only [MWResult.handled.injEq, reduceCtorEq] at h
  all_goals exact h.1.symm

theorem ctxValue_cons_ne (c : Ctx) (k k2 : CtxKey) (v : CtxVal)
    (h : (k2 == k) = false) :
    ctxValue (contextWithValue c k2 v) k = ctxValue c k := by
  simp [ctxValue, contextWithValue, List.find?, h]

theorem getUserID_contextWith (c : Ctx) (uid : String) :
    GetUserIDFromContext (ContextWithUserID c uid) = (uid, true) := by
  simp [GetUserIDFromContext, ContextWithUserID, contextWithValue, ctxValue,
    List.find?]

/-! ## The claims -/

/-- Claim C4: for every request with no Authorization header, both
authentication strategies answer 401 with body exactly
the JSON error object for "Unauthorized: Missing Authorization header",
and the downstream handler is not invoked. -/
theorem c4_missing_auth_header (jwtSecret : String) (ks : KeySet) (dec : Decoder)
    (now : Int) (req : Request) (hhdr : req.authHeader = "") :
    newJWTAuthMiddleware jwtSecret dec now req =
      MWResult.handled 401 (jsonErrorBody ("Unauthorized: Missing Authorization header"))
    ∧ newJWKSAuthMiddleware ks dec now req =
      MWResult.handled 401 (jsonErrorBody ("Unauthorized: Missing Authorization header"))
    ∧ (∀ c : Ctx, newJWTAuthMiddleware jwtSecret dec now req ≠ MWResult.next c)
    ∧ (∀ c : Ctx, newJWKSAuthMiddleware ks dec now req ≠ MWResult.next c) := by
  have h1 := legacy_missing_header jwtSecret dec now req hhdr
  have h2 := jwks_missing_header ks dec now req hhdr
  refine ⟨h1, h2, ?_, ?_⟩
  · intro c hc
    rw [h1] at hc
    exact MWResult.noConfusion hc
  · intro c hc
    rw [h2] at hc
    exact MWResult.noConfusion hc

/-- Witness for C4: a concrete request with no Authorization header. -/
theorem c4_missing_auth_header_witness :
    newJWTAuthMiddleware ("S") (decTok tokHS) 0 reqNoAuth =
      MWResult.handled 401 (jsonErrorBody ("Unauthorized: Missing Authorization header"))
    ∧ newJWKSAuthMiddleware ksOne (decTok tokRS) 0 reqNoAuth =
      MWResult.handled 401 (jsonErrorBody ("Unauthorized: Missing Authorization header")) := by
  have h := c4_missing_auth_header ("S") ksOne (decTok tokHS) 0 reqNoAuth rfl
  have h' := c4_missing_auth_header ("S") ksOne (decTok tokRS) 0 reqNoAuth rfl
  exact ⟨h.1, h'.2.1⟩

/-- Claim C5: for every request whose Authorization header is present
but does not start with the exact case-sensitive prefix "Bearer ", both
strategies answer 401 with body exactly the JSON error object for
"Unauthorized: Invalid token format", a body distinct from the
missing-header body, and the downstream handler is not invoked. -/
theorem c5_bad_bearer_format (jwtSecret : String) (ks : KeySet) (dec : Decoder)
    (now : Int) (req : Request) (hne : req.authHeader ≠ "")
    (hpre : ¬ ("Bearer ").data <+: req.authHeader.data) :
    newJWTAuthMiddleware jwtSecret dec now req =
      MWResult.handled 401 (jsonErrorBody ("Unauthorized: Invalid token format"))
    ∧ newJWKSAuthMiddleware ks dec now req =
      MWResult.handled 401 (jsonErrorBody ("Unauthorized: Invalid token format"))
    ∧ jsonErrorBody ("Unauthorized: Invalid token format") ≠
        jsonErrorBody ("Unauthorized: Missing Authorization header")
    ∧ (∀ c : Ctx, newJWTAuthMiddleware jwtSecret dec now req ≠ MWResult.next c)
    ∧ (∀ c : Ctx, newJWKSAuthMiddleware ks dec now req ≠ MWResult.next c) := by
  have h1 := legacy_bad_format jwtSecret dec now req hne hpre
  have h2 := jwks_bad_format ks dec now req hne hpre
  refine ⟨h1, h2, by decide, ?_, ?_⟩
  · intro c hc
    rw [h1] at hc
    exact MWResult.noConfusion hc
  · intro c hc
    rw [h2] at hc
    exact MWResult.noConfusion hc

/-- Witness for C5: the spec's concrete scenario, header value
"invalid-format". -/
theorem c5_bad_bearer_format_witness :
    newJWTAuthMiddleware ("S") (decTok tokHS) 0 reqBadFormat =
      MWResult.handled 401 (jsonErrorBody ("Unauthorized: Invalid token format"))
    ∧ newJWKSAuthMiddleware ksOne (decTok tokRS) 0 reqBadFormat =
      MWResult.handled 401 (jsonErrorBody ("Unauthorized: Invalid token format")) := by
  have h := c5_bad_bearer_format ("S") ksOne (decTok tokHS) 0 reqBadFormat
    (by decide) (by decide)
  have h' := c5_bad_bearer_format ("S") ksOne (decTok tokRS) 0 reqBadFormat
    (by decide) (by decide)
  exact ⟨h.1, h'.2.1⟩

/-- Claim C3: for every token signed with a secret different from the
configured one, the shared-secret strategy answers 401 with body exactly
the JSON error object for "Unauthorized: Invalid token", no identity is
attached, and the downstream handler is not invoked. -/
theorem c3_wrong_secret (jwtSecret s2 : String) (dec : Decoder) (now : Int)
    (req : Request) (s : String) (t : Token)
    (hhdr : req.authHeader = "Bearer " ++ s)
    (hdec : dec s = Except.ok t)
    (halg : t.alg.isHMAC = true)
    (hsig : t.sig = Sig.hmacSig t.alg s2)
    (hs : s2 ≠ jwtSecret) :
    newJWTAuthMiddleware jwtSecret dec now req =
      MWResult.handled 401 (jsonErrorBody ("Unauthorized: Invalid token"))
    ∧ newLegacySharedSecretAuthMiddleware jwtSecret dec now req =
      MWResult.handled 401 (jsonErrorBody ("Unauthorized: Invalid token"))
    ∧ (∀ c : Ctx, newJWTAuthMiddleware jwtSecret dec now req ≠ MWResult.next c) := by
  have hv := verifyHMAC_wrong_secret jwtSecret s2 now t halg hsig hs
  have h1 := legacy_auth_verify_fail jwtSecret dec now req s t _ hhdr hdec hv
  refine ⟨h1, h1, ?_⟩
  intro c hc
  rw [h1] at hc
  exact MWResult.noConfusion hc

/-- Witness for C3: the token signed with "S2" presented to the
middleware configured with secret "S". -/
theorem c3_wrong_secret_witness :
    newJWTAuthMiddleware ("S") (decTok tokHSWrong) 0 reqBearerTok =
      MWResult.handled 401 (jsonErrorBody ("Unauthorized: Invalid token"))
    ∧ newLegacySharedSecretAuthMiddleware ("S") (decTok tokHSWrong) 0 reqBearerTok =
      MWResult.handled 401 (jsonErrorBody ("Unauthorized: Invalid token")) := by
  have h := c3_wrong_secret ("S") ("S2") (decTok tokHSWrong) 0 reqBearerTok
    ("tok") tokHSWrong (by decide) rfl (by decide) (by decide) (by decide)
  exact ⟨h.1, h.2.1⟩

/-- Claim C1: for every request carrying a token signed with the
configured secret (shared-secret strategy) or configured key (key-set
strategy) that is not expired: if the sub claim is a non-empty string,
authenticate succeeds, the attached identity equals the sub claim
exactly, and the downstream handler runs; if after signature
verification the sub claim is absent, not a string, or empty,
authenticate answers 401 and the downstream handler does not run. -/
theorem c1_subject_identity (jwtSecret : String) (ks : KeySet) (dec : Decoder)
    (now : Int) (req : Request) (s : String) (t : Token)
    (hhdr : req.authHeader = "Bearer " ++ s)
    (hdec : dec s = Except.ok t)
    (hexp : expOk now t = true) :
    (t.alg.isHMAC = true → t.sig = Sig.hmacSig t.alg jwtSecret →
      (∀ uid : String, t.sub = some (ClaimVal.str uid) → uid ≠ "" →
        newJWTAuthMiddleware jwtSecret dec now req =
          MWResult.next (ContextWithUserID req.ctx uid)
        ∧ GetUserIDFromContext (ContextWithUserID req.ctx uid) = (uid, true))
      ∧ (subInvalid t.sub = true →
          newJWTAuthMiddleware jwtSecret dec now req =
            MWResult.handled 401 (jsonErrorBody ("Unauthorized: Invalid user ID in token"))
          ∧ (∀ c : Ctx, newJWTAuthMiddleware jwtSecret dec now req ≠ MWResult.next c)))
    ∧ (∀ kid key : String, t.alg = Alg.RS256 → t.kid = some kid →
        lookupKeyID ks kid = some key → t.sig = Sig.rsaSig t.alg key →
        (∀ uid : String, t.sub = some (ClaimVal.str uid) → uid ≠ "" →
          newJWKSAuthMiddleware ks dec now req =
            MWResult.next (ContextWithUserID req.ctx uid)
          ∧ GetUserIDFromContext (ContextWithUserID req.ctx uid) = (uid, true))
        ∧ (subInvalid t.sub = true →
            newJWKSAuthMiddleware ks dec now req =
              MWResult.handled 401 (jsonErrorBody ("Unauthorized: Invalid user ID in token"))
            ∧ (∀ c : Ctx, newJWKSAuthMiddleware ks dec now req ≠ MWResult.next c))) := by
  constructor
  · intro halg hsig
    have hver := verifyHMAC_ok jwtSecret now t halg hsig hexp
    constructor
    · intro uid hsub huid
      exact ⟨legacy_auth_next jwtSecret dec now req s t uid hhdr hdec hver hsub huid,
        getUserID_contextWith req.ctx uid⟩
    · intro hsubinv
      have hld := legacy_auth_bad_sub jwtSecret dec now req s t hhdr hdec hver hsubinv
      refine ⟨hld, ?_⟩
      intro c hc
      rw [hld] at hc
      exact MWResult.noConfusion hc
  · intro kid key halg hkid hlook hsig
    have hver := verifyJWKS_ok ks now t kid key halg hkid hlook hsig hexp
    constructor
    · intro uid hsub huid
      exact ⟨jwks_auth_next ks dec now req s t uid hhdr hdec hver hsub huid,
        getUserID_contextWith req.ctx uid⟩
    · intro hsubinv
      have hld := jwks_auth_bad_sub ks dec now req s t hhdr hdec hver hsubinv
      refine ⟨hld, ?_⟩
      intro c hc
      rw [hld] at hc
      exact MWResult.noConfusion hc

/-- Witness for C1: the HS256 token for user-123 signed with "S" under
secret "S", and the RS256 token with kid "k1" under the one-key set. -/
theorem c1_subject_identity_witness :
    newJWTAuthMiddleware ("S") (decTok tokHS) 0 reqBearerTok =
      MWResult.next (ContextWithUserID reqBearerTok.ctx ("user-123"))
    ∧ GetUserIDFromContext (ContextWithUserID reqBearerTok.ctx ("user-123")) =
        ("user-123", true)
    ∧ newJWKSAuthMiddleware ksOne (decTok tokRS) 0 reqBearerTok =
      MWResult.next (ContextWithUserID reqBearerTok.ctx ("user-123")) := by
  have h := c1_subject_identity ("S") ksOne (decTok tokHS) 0 reqBearerTok
    ("tok") tokHS (by decide) rfl (by decide)
  have h' := c1_subject_identity ("S") ksOne (decTok tokRS) 0 reqBearerTok
    ("tok") tokRS (by decide) rfl (by decide)
  have hl := (h.1 (by decide) (by decide)).1 ("user-123") (by decide) (by decide)
  have hj := (h'.2 ("k1") ("key1") (by decide) (by decide) rfl (by decide)).1
    ("user-123") (by decide) (by decide)
  exact ⟨hl.1, hl.2, hj.1⟩

/-- Claim C6: the shared-secret strategy rejects every token whose
algorithm is outside the HMAC family with a 401 (the keyfunc errors
before any verification), never verifying it through a non-symmetric
path; the guard is family membership, not an exact single algorithm:
any HMAC-family token properly signed with the secret verifies. -/
theorem c6_hmac_family_guard (jwtSecret : String) (now : Int) :
    (∀ t : Token, t.alg.isHMAC = false →
      verifyHMAC jwtSecret now t = Except.error (VerifyErr.keyfuncHMAC t.alg.algName)
      ∧ (∀ (dec : Decoder) (req : Request) (s : String),
          req.authHeader = "Bearer " ++ s → dec s = Except.ok t →
          newJWTAuthMiddleware jwtSecret dec now req =
            MWResult.handled 401 (jsonErrorBody ("Unauthorized: Invalid token"))))
    ∧ (∀ t : Token, t.alg.isHMAC = true → t.sig = Sig.hmacSig t.alg jwtSecret →
        expOk now t = true → verifyHMAC jwtSecret now t = Except.ok t)
    ∧ Alg.isHMAC Alg.HS256 = true ∧ Alg.isHMAC Alg.HS384 = true
    ∧ Alg.isHMAC Alg.HS512 = true ∧ Alg.isHMAC Alg.RS256 = false := by
  refine ⟨?_, ?_, rfl, rfl, rfl, rfl⟩
  · intro t halg
    refine ⟨verifyHMAC_not_hmac jwtSecret now t halg, ?_⟩
    intro dec req s hhdr hdec
    exact legacy_auth_verify_fail jwtSecret dec now req s t _ hhdr hdec
      (verifyHMAC_not_hmac jwtSecret now t halg)
  · intro t halg hsig hexp
    exact verifyHMAC_ok jwtSecret now t halg hsig hexp

/-- Witness for C6: the RS256 token is rejected by the shared-secret
strategy, while both the HS256 and the HS384 tokens signed with the
secret verify (family membership, not exact-algorithm match). -/
theorem c6_hmac_family_guard_witness :
    newJWTAuthMiddleware ("S") (decTok tokRS) 0 reqBearerTok =
      MWResult.handled 401 (jsonErrorBody ("Unauthorized: Invalid token"))
    ∧ verifyHMAC ("S") 0 tokHS = Except.ok tokHS
    ∧ verifyHMAC ("S") 0 tokHS384 = Except.ok tokHS384 := by
  have h := c6_hmac_family_guard ("S") 0
  refine ⟨(h.1 tokRS (by decide)).2 (decTok tokRS) reqBearerTok ("tok")
    (by decide) rfl, ?_, ?_⟩
  · exact h.2.1 tokHS (by decide) (by decide) (by decide)
  · exact h.2.1 tokHS384 (by decide) (by decide) (by decide)

/-- Claim C7: the key-set strategy accepts only RS256 and answers 401
when the algorithm is different, when the token declares no kid, when
the key-set lookup finds no key for the kid, or when the signature does
not verify under the resolved key. -/
theorem c7_keyset_checks (ks : KeySet) (dec : Decoder) (now : Int)
    (req : Request) (s : String) (t : Token)
    (hhdr : req.authHeader = "Bearer " ++ s)
    (hdec : dec s = Except.ok t) :
    (t.alg ≠ Alg.RS256 →
      newJWKSAuthMiddleware ks dec now req =
        MWResult.handled 401 (jsonErrorBody ("Unauthorized: Invalid token ("
          ++ VerifyErr.message (VerifyErr.invalidMethod t.alg.algName) ++ ")")))
    ∧ (t.alg = Alg.RS256 → t.kid = none →
      newJWKSAuthMiddleware ks dec now req =
        MWResult.handled 401 (jsonErrorBody ("Unauthorized: Invalid token ("
          ++ VerifyErr.message VerifyErr.missingKid ++ ")")))
    ∧ (∀ kid : String, t.alg = Alg.RS256 → t.kid = some kid →
        lookupKeyID ks kid = none →
      newJWKSAuthMiddleware ks dec now req =
        MWResult.handled 401 (jsonErrorBody ("Unauthorized: Invalid token ("
          ++ VerifyErr.message (VerifyErr.keyNotFound kid) ++ ")")))
    ∧ (∀ kid key : String, t.alg = Alg.RS256 → t.kid = some kid →
        lookupKeyID ks kid = some key → rsaSigMatches t key = false →
      newJWKSAuthMiddleware ks dec now req =
        MWResult.handled 401 (jsonErrorBody ("Unauthorized: Invalid token ("
          ++ VerifyErr.message VerifyErr.sigInvalid ++ ")"))) := by
  refine ⟨?_, ?_, ?_, ?_⟩
  · intro halg
    exact jwks_auth_verify_fail ks dec now req s t _ hhdr hdec
      (verifyJWKS_not_rs256 ks now t halg)
  · intro halg hkid
    exact jwks_auth_verify_fail ks dec now req s t _ hhdr hdec
      (verifyJWKS_no_kid ks now t halg hkid)
  · intro kid halg hkid hlook
    exact jwks_auth_verify_fail ks dec now req s t _ hhdr hdec
      (verifyJWKS_key_not_found ks now t kid halg hkid hlook)
  · intro kid key halg hkid hlook hsig
    exact jwks_auth_verify_fail ks dec now req s t _ hhdr hdec
      (verifyJWKS_bad_sig ks now t kid key halg hkid hlook hsig)

/-- Witness for C7: the RS256 token with no kid header, and the HS256
token presented to the key-set strategy. -/
theorem c7_keyset_checks_witness :
    newJWKSAuthMiddleware [] (decTok tokNoKid) 0 reqBearerTok =
      MWResult.handled 401 (jsonErrorBody ("Unauthorized: Invalid token ("
        ++ VerifyErr.message VerifyErr.missingKid ++ ")"))
    ∧ newJWKSAuthMiddleware ksOne (decTok tokHS) 0 reqBearerTok =
      MWResult.handled 401 (jsonErrorBody ("Unauthorized: Invalid token ("
        ++ VerifyErr.message (VerifyErr.invalidMethod (Alg.algName tokHS.alg)) ++ ")")) := by
  have h := c7_keyset_checks [] (decTok tokNoKid) 0 reqBearerTok ("tok") tokNoKid
    (by decide) rfl
  have h' := c7_keyset_checks ksOne (decTok tokHS) 0 reqBearerTok ("tok") tokHS
    (by decide) rfl
  exact ⟨h.2.1 (by decide) (by decide), h'.1 (by decide)⟩

/-- Claim C2 as stated is false on the code: at the concrete request
carrying the RS256 token without a kid header, the key-set strategy's
401 body interpolates err.Error() (jwt.go line 85), so the raw
verification error string appears verbatim in the response body. -/
theorem c2_no_leak_counterexample :
    newJWKSAuthMiddleware [] (decTok tokNoKid) 0 reqBearerTok =
      MWResult.handled 401 (jsonErrorBody ("Unauthorized: Invalid token ("
        ++ VerifyErr.message VerifyErr.missingKid ++ ")"))
    ∧ strContains (jsonErrorBody ("Unauthorized: Invalid token ("
        ++ VerifyErr.message VerifyErr.missingKid ++ ")"))
        (VerifyErr.message VerifyErr.missingKid) = true := by
  constructor
  · exact jwks_auth_verify_fail [] (decTok tokNoKid) 0 reqBearerTok ("tok")
      tokNoKid _ (by decide) rfl (verifyJWKS_no_kid [] 0 tokNoKid rfl rfl)
  · decide

/-- Claim C2 amended: internal error distinctions never change the
status code, which is 401 for every failure in both strategies; the
shared-secret strategy's failure bodies are drawn from a fixed list of
reason strings independent of the verification error, but the key-set
strategy's body does embed the raw verification error string. -/
theorem c2_fixed_status_and_legacy_bodies (jwtSecret : String) (ks : KeySet)
    (dec dec2 : Decoder) (now now2 : Int) (req req2 : Request)
    (st st2 : Nat) (b b2 : String)
    (h : newJWTAuthMiddleware jwtSecret dec now req = MWResult.handled st b)
    (h2 : newJWKSAuthMiddleware ks dec2 now2 req2 = MWResult.handled st2 b2) :
    (st = 401 ∧ b ∈ legacyFailureBodies) ∧ st2 = 401 :=
  ⟨legacy_handled_bodies jwtSecret dec now req st b h,
   jwks_handled_status ks dec2 now2 req2 st2 b2 h2⟩

/-- Witness for the amended C2: both strategies at the concrete request
with no Authorization header. -/
theorem c2_fixed_status_witness :
    (401 = 401
      ∧ jsonErrorBody ("Unauthorized: Missing Authorization header") ∈ legacyFailureBodies)
    ∧ 401 = 401 := by
  exact c2_fixed_status_and_legacy_bodies ("S") ksOne (decTok tokHS) (decTok tokRS)
    0 0 reqNoAuth reqNoAuth 401 401
    (jsonErrorBody ("Unauthorized: Missing Authorization header"))
    (jsonErrorBody ("Unauthorized: Missing Authorization header")) rfl rfl

/-- Claim C8: readiness starts false at construction; after
SetReady(true) GET /readyz answers 200 READY; after SetReady(false) it
answers 503 NOT READY; GET /healthz answers 200 OK in both states. -/
theorem c8_probe_endpoints (p : String) (s : BaseServerModel) :
    (newBaseServer p).isReady = false
    ∧ serveDefaultRoute (setReady s true) ("/readyz") = some (200, "READY")
    ∧ serveDefaultRoute (setReady s false) ("/readyz") = some (503, "NOT READY")
    ∧ serveDefaultRoute (setReady s true) ("/healthz") = some (200, "OK")
    ∧ serveDefaultRoute (setReady s false) ("/healthz") = some (200, "OK")
    ∧ readyzHandler (setReady s true) = (200, "READY")
    ∧ readyzHandler (setReady s false) = (503, "NOT READY")
    ∧ healthzHandler s = (200, "OK") := by
  refine ⟨rfl, ?_, ?_, rfl, rfl, rfl, rfl, rfl⟩
  · simp [serveDefaultRoute, readyzHandler, setReady]
  · simp [serveDefaultRoute, readyzHandler, setReady]

/-- Claim C9: Start closes the registered ready channel only after the
listener has bound; when binding fails, Start returns an error and the
channel is never closed. -/
theorem c9_ready_channel_after_bind (s : BaseServerModel) (m addr : String)
    (serve : ServeOutcome) :
    (startModel s (BindOutcome.fail m) serve).snd.isSome = true
    ∧ hasCloseEvent (startModel s (BindOutcome.fail m) serve).fst = false
    ∧ noCloseBeforeBind (startModel s (BindOutcome.ok addr) serve).fst = true
    ∧ hasCloseEvent
        (startModel (setReadyChannel s) (BindOutcome.ok addr) serve).fst = true := by
  cases serve <;> exact ⟨rfl, rfl, rfl, rfl⟩

/-- Claim C10: retrieving the user ID after ContextWithUserID yields
exactly the stored ID with ok true; when nothing is stored under the
private middleware key, ok is false, even when another package stored a
value under the bare string key "userID". -/
theorem c10_context_key_isolation :
    (∀ (c : Ctx) (userID : String),
      GetUserIDFromContext (ContextWithUserID c userID) = (userID, true))
    ∧ (∀ c : Ctx, ctxValue c userContextKey = none →
        GetUserIDFromContext c = ("", false))
    ∧ (∀ (c : Ctx) (userID : String), ctxValue c userContextKey = none →
        GetUserIDFromContext
          (contextWithValue c (CtxKey.goStringKey ("userID")) (CtxVal.str userID)) =
          ("", false)) := by
  refine ⟨getUserID_contextWith, ?_, ?_⟩
  · intro c h
    simp [GetUserIDFromContext, h]
  · intro c userID h
    have hv : ctxValue
        (contextWithValue c (CtxKey.goStringKey ("userID")) (CtxVal.str userID))
        userContextKey = none := by
      rw [ctxValue_cons_ne c userContextKey (CtxKey.goStringKey ("userID"))
        (CtxVal.str userID) (by decide)]
      exact h
    simp [GetUserIDFromContext, hv]

/-- Witness for C10: the empty context and the bare string key. -/
theorem c10_context_key_isolation_witness :
    GetUserIDFromContext (ContextWithUserID [] ("u1")) = ("u1", true)
    ∧ GetUserIDFromContext [] = ("", false)
    ∧ GetUserIDFromContext
        (contextWithValue [] (CtxKey.goStringKey ("userID")) (CtxVal.str ("u1"))) =
        ("", false) := by
  exact ⟨c10_context_key_isolation.1 [] ("u1"),
    c10_context_key_isolation.2.1 [] rfl,
    c10_context_key_isolation.2.2 [] ("u1") rfl⟩

end MicroBase
